import Mathlib

/-
Shallow embedding of the EcoFinds cart/checkout core
(src/backend/routes/cart.py and src/backend/models/product.py).

Rows of the four relevant tables are Lean structures; the joint durable
state of the three stores (catalog, cart, order ledger) is the structure
DB.  Each Flask handler becomes a pure function from DB (plus its request
parameters) to a result paired with the successor DB; a handler that
commits nothing returns its input DB unchanged, mirroring the fact that
only db.session.commit makes staged changes durable and db.session.rollback
discards them.  Prices (db.Float in the source) are modelled as rationals.
The excluded collaborators (JWT identity, User table lookup, JSON parsing)
are not modelled: every operation takes the authenticated user id directly,
as the spec treats identity issuance as an external trusted token.
-/

namespace EcoFinds

/-- A row of the products table (models/product.py); only the columns the
cart/checkout logic reads are kept. -/
structure Product where
  id : Nat
  title : String
  price : ℚ
  is_sold : Bool
  seller_id : Nat
deriving DecidableEq

/-- A row of the cart_items table: one product reference in one user's cart. -/
structure CartItem where
  id : Nat
  user_id : Nat
  product_id : Nat
deriving DecidableEq

/-- A row of the orders table. -/
structure Order where
  id : Nat
  user_id : Nat
  total_amount : ℚ
  shipping_address : String
deriving DecidableEq

/-- A row of the order_items table. -/
structure OrderItem where
  id : Nat
  order_id : Nat
  product_id : Nat
  price : ℚ
deriving DecidableEq

/-- The joint durable state of the catalog store, cart store and order
ledger, together with the autoincrement counters of the three mutable
tables. -/
structure DB where
  products : List Product
  cart_items : List CartItem
  orders : List Order
  order_items : List OrderItem
  next_cart_item_id : Nat
  next_order_id : Nat
  next_order_item_id : Nat
deriving DecidableEq

/-- Product.query.get(product_id): primary-key lookup in the products table. -/
def getProduct (db : DB) (pid : Nat) : Option Product :=
  db.products.find? (fun p => p.id == pid)

/-- Error outcomes of add_to_cart (the 404/400 JSON bodies of cart.py
lines 86, 89, 94 and 102). -/
inductive AddError where
  | ProductNotFound
  | ProductUnavailable
  | AlreadyInCart
  | SelfPurchaseForbidden
deriving DecidableEq

/-- Error outcomes of remove_from_cart (the 404 and 403 responses). -/
inductive RemoveError where
  | NotFound
  | Forbidden
deriving DecidableEq

/-- One element of the unavailableProducts list built by checkout
(cart.py lines 176-179): a dict with keys id and name. -/
structure UnavailableProduct where
  id : Nat
  name : String
deriving DecidableEq

/-- Error outcomes of checkout: the empty-cart 400, the
unavailable-products 400, and the 500 produced when the durable commit
raises (surfaced after db.session.rollback). -/
inductive CheckoutError where
  | EmptyCart
  | ItemsUnavailable (unavailableProducts : List UnavailableProduct)
  | CheckoutFailed
deriving DecidableEq

/-- Reason string attached to a stale entry by get_cart. -/
inductive StaleReason where
  | missing
  | sold
deriving DecidableEq

/-- One element of the unavailableItems list built by get_cart
(cart.py lines 36-46): cart-item id, product id and a reason. -/
structure UnavailableItem where
  id : Nat
  product_id : Nat
  reason : StaleReason
deriving DecidableEq

/-- The JSON body returned by get_cart: valid items, their total, and the
unavailable items. -/
structure CartView where
  cartItems : List CartItem
  total : ℚ
  unavailableItems : List UnavailableItem
deriving DecidableEq

/-- The for-loop of get_cart (cart.py lines 30-46) over the user's cart
items: an item whose product exists and is unsold contributes its product
price to the total and joins the valid list; otherwise it is reported
unavailable with reason sold or missing. -/
def cartViewLoop (db : DB) : List CartItem → CartView
  | [] => { cartItems := [], total := 0, unavailableItems := [] }
  | item :: rest =>
    let r := cartViewLoop db rest
    match getProduct db item.product_id with
    | some p =>
      if p.is_sold then
        { r with unavailableItems :=
            ⟨item.id, item.product_id, StaleReason.sold⟩ :: r.unavailableItems }
      else
        { cartItems := item :: r.cartItems
          total := p.price + r.total
          unavailableItems := r.unavailableItems }
    | none =>
      { r with unavailableItems :=
          ⟨item.id, item.product_id, StaleReason.missing⟩ :: r.unavailableItems }

/-- GET /cart (get_cart in routes/cart.py): read-only view of the caller's
cart; performs no store mutation, hence returns the input DB. -/
def get_cart (db : DB) (current_user_id : Nat) : CartView × DB :=
  (cartViewLoop db (db.cart_items.filter (fun c => c.user_id == current_user_id)), db)

/-- POST /cart (add_to_cart in routes/cart.py): resolve the product, then
in the source's order check is_sold (line 88), an existing cart row for
(user, product) (line 92), and self-purchase (line 101); only the success
path stages and commits an insert. -/
def add_to_cart (db : DB) (current_user_id product_id : Nat) :
    Except AddError CartItem × DB :=
  match getProduct db product_id with
  | none => (Except.error AddError.ProductNotFound, db)
  | some product =>
    if product.is_sold then
      (Except.error AddError.ProductUnavailable, db)
    else
      match db.cart_items.find? (fun c =>
          c.user_id == current_user_id && c.product_id == product_id) with
      | some _ => (Except.error AddError.AlreadyInCart, db)
      | none =>
        if product.seller_id == current_user_id then
          (Except.error AddError.SelfPurchaseForbidden, db)
        else
          let cart_item : CartItem :=
            ⟨db.next_cart_item_id, current_user_id, product_id⟩
          (Except.ok cart_item,
           { db with
               cart_items := db.cart_items ++ [cart_item]
               next_cart_item_id := db.next_cart_item_id + 1 })

/-- DELETE /cart/id (remove_from_cart in routes/cart.py): primary-key
lookup, 404 if absent, 403 if owned by another user, else delete the row. -/
def remove_from_cart (db : DB) (id current_user_id : Nat) :
    Except RemoveError Unit × DB :=
  match db.cart_items.find? (fun c => c.id == id) with
  | none => (Except.error RemoveError.NotFound, db)
  | some cart_item =>
    if cart_item.user_id != current_user_id then
      (Except.error RemoveError.Forbidden, db)
    else
      (Except.ok (),
       { db with cart_items := db.cart_items.filter (fun c => c.id != id) })

/-- The availability scan of checkout (cart.py lines 173-179): an entry
whose product is missing is reported with the cart-item id and the name
Unknown product; an entry whose product is sold is reported with the
product id and the product title. -/
def unavailableReport (db : DB) (items : List CartItem) : List UnavailableProduct :=
  items.filterMap (fun item =>
    match getProduct db item.product_id with
    | none => some ⟨item.id, "Unknown product"⟩
    | some p => if p.is_sold then some ⟨item.product_id, p.title⟩ else none)

/-- cart_item.product.price as read on the commit path (cart.py lines 189
and 205).  The none branch is unreachable on every path on which this
function is used: validation has already established that the product
exists, and no modelled operation deletes a product. -/
def priceOf (db : DB) (pid : Nat) : ℚ :=
  match getProduct db pid with
  | some p => p.price
  | none => 0

/-- The order-item creation of the commit loop (cart.py lines 200-207):
one OrderItem per cart item, ids assigned by the autoincrement counter,
price captured from the product row at commit time. -/
def mkOrderItems (db : DB) (next_id order_id : Nat) : List CartItem → List OrderItem
  | [] => []
  | item :: rest =>
    ⟨next_id, order_id, item.product_id, priceOf db item.product_id⟩
      :: mkOrderItems db (next_id + 1) order_id rest

/-- The effect of the commit loop (cart.py line 210) on one product row:
its is_sold column is set when some cart item of the batch references it;
the write is an unconditional assignment, it does not test the current
flag. -/
def markFn (items : List CartItem) (p : Product) : Product :=
  if items.any (fun c => c.product_id == p.id) then { p with is_sold := true } else p

/-- The is_sold flips of the commit loop (cart.py line 210) over the whole
products table. -/
def markSold (products : List Product) (items : List CartItem) : List Product :=
  products.map (markFn items)

/-- The cart deletions of the commit loop (cart.py line 213): every row of
the loaded batch is deleted by primary key. -/
def deleteItems (cart_items items : List CartItem) : List CartItem :=
  cart_items.filter (fun c => !(items.any (fun i => i.id == c.id)))

/-- The staged writes of checkout after validation (cart.py lines 188-215),
applied to the store state current at commit time: total over the batch,
one new Order, one OrderItem per cart item, sold flags flipped, the batch
deleted from the cart. -/
def checkoutCommit (db : DB) (current_user_id : Nat) (shipping_address : String)
    (items : List CartItem) : Order × DB :=
  let total_amount := (items.map (fun item => priceOf db item.product_id)).sum
  let order : Order := ⟨db.next_order_id, current_user_id, total_amount, shipping_address⟩
  (order,
   { products := markSold db.products items
     cart_items := deleteItems db.cart_items items
     orders := db.orders ++ [order]
     order_items := db.order_items ++ mkOrderItems db db.next_order_item_id order.id items
     next_cart_item_id := db.next_cart_item_id
     next_order_id := db.next_order_id + 1
     next_order_item_id := db.next_order_item_id + items.length })

/-- The load and validation phase of checkout (cart.py lines 164-186): load
the caller's cart rows, fail EmptyCart when there are none, else fail
ItemsUnavailable when the availability scan reports anything, else hand the
loaded batch to the commit phase. -/
def checkoutValidate (db : DB) (current_user_id : Nat) :
    Except CheckoutError (List CartItem) :=
  let cart_items := db.cart_items.filter (fun c => c.user_id == current_user_id)
  if cart_items.isEmpty then
    Except.error CheckoutError.EmptyCart
  else
    let unavailable_products := unavailableReport db cart_items
    if unavailable_products.isEmpty then Except.ok cart_items
    else Except.error (CheckoutError.ItemsUnavailable unavailable_products)

/-- POST /cart/checkout with an explicit outcome of the durable write:
commit_ok = true is the path on which db.session.commit succeeds and all
staged writes become durable together; commit_ok = false is the path on
which it raises, db.session.rollback discards every staged write (order,
order items, sold flags, cart deletions), and the 500 response surfaces as
CheckoutFailed. -/
def checkoutWith (commit_ok : Bool) (db : DB) (current_user_id : Nat)
    (shipping_address : String) : Except CheckoutError Order × DB :=
  match checkoutValidate db current_user_id with
  | Except.error e => (Except.error e, db)
  | Except.ok items =>
    if commit_ok then
      let r := checkoutCommit db current_user_id shipping_address items
      (Except.ok r.1, r.2)
    else
      (Except.error CheckoutError.CheckoutFailed, db)

/-- POST /cart/checkout on the path where the durable write succeeds. -/
def checkout (db : DB) (current_user_id : Nat) (shipping_address : String) :
    Except CheckoutError Order × DB :=
  checkoutWith true db current_user_id shipping_address

/-- A cart entry whose product exists and is unsold: the branch of the
get_cart loop that counts toward the total and the valid list. -/
def entryAvailable (db : DB) (c : CartItem) : Bool :=
  match getProduct db c.product_id with
  | some p => !p.is_sold
  | none => false

/-- The unavailable-items report row the get_cart loop produces for one
stale cart entry: the entry id, its product id, and the reason. -/
def entryStale (db : DB) (c : CartItem) : Option UnavailableItem :=
  match getProduct db c.product_id with
  | none => some ⟨c.id, c.product_id, StaleReason.missing⟩
  | some p =>
    if p.is_sold then some ⟨c.id, c.product_id, StaleReason.sold⟩ else none

/-- Number of order-item rows referencing a given product id. -/
def orderItemCount (db : DB) (pid : Nat) : Nat :=
  db.order_items.countP (fun oi => oi.product_id == pid)

/-- The central cross-entity invariant of the spec: every product is
referenced by exactly one order item when sold and by none when unsold
(hence by at most one ever). -/
def SoldInv (db : DB) : Prop :=
  ∀ p ∈ db.products, orderItemCount db p.id = if p.is_sold then 1 else 0

instance (db : DB) : Decidable (SoldInv db) := by
  unfold SoldInv; infer_instance

/-- Primary-key integrity of the products table. -/
def ProductIdsNodup (db : DB) : Prop :=
  (db.products.map Product.id).Nodup

/-- The cart-store invariant of the spec: at most one cart row per
(user, product) pair. -/
def CartUnique (db : DB) : Prop :=
  (db.cart_items.map (fun c => (c.user_id, c.product_id))).Nodup

/-- Well-formed joint state: table integrity plus the single-sale
invariant. -/
def WF (db : DB) : Prop :=
  ProductIdsNodup db ∧ CartUnique db ∧ SoldInv db

instance (db : DB) : Decidable (WF db) := by
  unfold WF ProductIdsNodup CartUnique; infer_instance

deriving instance DecidableEq for Except

/-
Concrete states used to instantiate the theorems.
-/

/-- A well-formed state: two unsold products listed by sellers 100 and 101,
both in the cart of buyer 7; empty order ledger. -/
def sampleDB : DB :=
  { products := [⟨1, "A", 10, false, 100⟩, ⟨2, "B", 15, false, 101⟩]
    cart_items := [⟨1, 7, 1⟩, ⟨2, 7, 2⟩]
    orders := []
    order_items := []
    next_cart_item_id := 3
    next_order_id := 1
    next_order_item_id := 1 }

/-- A well-formed state with one unsold product held in the carts of two
distinct buyers 7 and 8: the setup of the checkout race. -/
def raceDB : DB :=
  { products := [⟨1, "P", 5, false, 100⟩]
    cart_items := [⟨1, 7, 1⟩, ⟨2, 8, 1⟩]
    orders := []
    order_items := []
    next_cart_item_id := 3
    next_order_id := 1
    next_order_item_id := 1 }

/-- The durable state after buyer 7's checkout of the race commits. -/
def raceAfterFirst : DB :=
  (checkoutCommit raceDB 7 "a" [⟨1, 7, 1⟩]).2

/-- The durable state after buyer 8's racing checkout also commits: buyer
8's batch was loaded and validated against raceDB, before buyer 7's commit
landed. -/
def raceAfterSecond : DB :=
  (checkoutCommit raceAfterFirst 8 "b" [⟨2, 8, 1⟩]).2

/-- A state whose single cart entry (id 3, buyer 1) references product id 5,
which is absent from the products table: a stale cart. -/
def staleDB : DB :=
  { products := [⟨9, "C", 7, false, 100⟩]
    cart_items := [⟨3, 1, 5⟩]
    orders := []
    order_items := []
    next_cart_item_id := 4
    next_order_id := 1
    next_order_item_id := 1 }

/-- A state in which user 2 is the seller of unsold product 1 and already
holds it in their cart. -/
def ownInCartDB : DB :=
  { products := [⟨1, "own", 5, false, 2⟩]
    cart_items := [⟨1, 2, 1⟩]
    orders := []
    order_items := []
    next_cart_item_id := 2
    next_order_id := 1
    next_order_item_id := 1 }

/-- A state in which user 2 is the seller of unsold product 1 and has an
empty cart. -/
def ownFreshDB : DB :=
  { products := [⟨1, "own", 5, false, 2⟩]
    cart_items := []
    orders := []
    order_items := []
    next_cart_item_id := 1
    next_order_id := 1
    next_order_item_id := 1 }

/-- A state in which user 2 is the seller of product 1, which is already
sold (with its order ledger entry). -/
def ownSoldDB : DB :=
  { products := [⟨1, "own", 5, true, 2⟩]
    cart_items := []
    orders := [⟨1, 9, 5, "x"⟩]
    order_items := [⟨1, 1, 1, 5⟩]
    next_cart_item_id := 1
    next_order_id := 2
    next_order_item_id := 2 }

/-
Helper lemmas.
-/

/-- The single-sale invariant only looks at the products and order_items
tables, so it transports between states agreeing on them. -/
theorem soldInv_congr {db db' : DB} (hp : db'.products = db.products)
    (ho : db'.order_items = db.order_items) (h : SoldInv db) : SoldInv db' := by
  intro p hmem
  have := h p (hp ▸ hmem)
  simpa [orderItemCount, ho] using this

/-- With a duplicate-free products table, primary-key lookup of a member
row returns that row. -/
theorem find?_id_of_mem : ∀ {ps : List Product}, (ps.map Product.id).Nodup →
    ∀ {p : Product}, p ∈ ps → ps.find? (fun q => q.id == p.id) = some p := by
  intro ps
  induction ps with
  | nil => intro _ p hp; cases hp
  | cons a t ih =>
    intro hnd p hp
    simp only [List.map_cons, List.nodup_cons] at hnd
    rcases List.mem_cons.mp hp with rfl | hp
    · simp [List.find?]
    · have hne : (a.id == p.id) = false := by
        refine beq_eq_false_iff_ne.mpr (fun h => hnd.1 ?_)
        exact h ▸ List.mem_map_of_mem Product.id hp
      rw [List.find?_cons, hne]
      exact ih hnd.2 hp

/-- Primary-key lookup of a member product. -/
theorem getProduct_mem_self {db : DB} (hnd : ProductIdsNodup db) {p : Product}
    (hp : p ∈ db.products) : getProduct db p.id = some p :=
  find?_id_of_mem hnd hp

/-- The order items materialized for a batch reference exactly the product
ids of the batch, with multiplicity. -/
theorem countP_mkOrderItems (db : DB) (oid pid : Nat) :
    ∀ (items : List CartItem) (n : Nat),
      (mkOrderItems db n oid items).countP (fun oi => oi.product_id == pid)
        = items.countP (fun c => c.product_id == pid) := by
  intro items
  induction items with
  | nil => intro n; rfl
  | cons a t ih => intro n; simp [mkOrderItems, List.countP_cons, ih]

/-- In a list of cart items with duplicate-free product ids, a member's
product id is hit exactly once. -/
theorem countP_eq_one_of_nodup : ∀ {l : List CartItem},
    (l.map (fun c => c.product_id)).Nodup → ∀ {item : CartItem}, item ∈ l →
      l.countP (fun c => c.product_id == item.product_id) = 1 := by
  intro l
  induction l with
  | nil => intro _ item h; cases h
  | cons a t ih =>
    intro hnd item hmem
    simp only [List.map_cons, List.nodup_cons] at hnd
    rcases List.mem_cons.mp hmem with rfl | hmem
    · rw [List.countP_cons]
      have h0 : t.countP (fun c => c.product_id == item.product_id) = 0 := by
        rw [List.countP_eq_zero]
        intro c hc hbeq
        exact hnd.1 ((beq_iff_eq.mp hbeq) ▸ List.mem_map_of_mem _ hc)
      simp [h0]
    · rw [List.countP_cons]
      have hne : (a.product_id == item.product_id) = false := by
        refine beq_eq_false_iff_ne.mpr (fun h => hnd.1 ?_)
        exact h ▸ List.mem_map_of_mem _ hmem
      simp [hne, ih hnd.2 hmem]

/-- Marking products sold does not touch the id column. -/
theorem markFn_id (items : List CartItem) (p : Product) :
    (markFn items p).id = p.id := by
  unfold markFn; split <;> rfl

/-- Marking products sold preserves the id column of the whole table. -/
theorem markSold_map_id (ps : List Product) (items : List CartItem) :
    (markSold ps items).map Product.id = ps.map Product.id := by
  simp only [markSold, List.map_map]
  exact List.map_congr_left (fun p _ => markFn_id items p)

/-- Primary-key lookup commutes with marking sold, because the predicate
only reads the untouched id column. -/
theorem find?_markSold (ps : List Product) (items : List CartItem) (pid : Nat) :
    (markSold ps items).find? (fun p => p.id == pid)
      = (ps.find? (fun p => p.id == pid)).map (markFn items) := by
  induction ps with
  | nil => rfl
  | cons a t ih =>
    rw [markSold, List.map_cons, List.find?_cons, List.find?_cons, markFn_id]
    cases h : (a.id == pid) with
    | true => rfl
    | false => exact ih

/-- Cart uniqueness restricts along sublists of the cart table. -/
theorem cartUnique_sublist {l l' : List CartItem} (h : l'.Sublist l)
    (hnd : (l.map fun c => (c.user_id, c.product_id)).Nodup) :
    (l'.map fun c => (c.user_id, c.product_id)).Nodup :=
  (h.map _).nodup hnd

/-- Within one user's cart slice, cart uniqueness makes the product ids
pairwise distinct. -/
theorem filter_user_pid_nodup {db : DB} (hcu : CartUnique db) (uid : Nat) :
    ((db.cart_items.filter fun c => c.user_id == uid).map
        fun c => c.product_id).Nodup := by
  have h1 : ((db.cart_items.filter fun c => c.user_id == uid).map
      fun c => (c.user_id, c.product_id)).Nodup :=
    cartUnique_sublist (List.filter_sublist _) hcu
  have hinj := List.inj_on_of_nodup_map h1
  refine List.Nodup.map_on ?_ (List.Nodup.of_map _ h1)
  intro x hx y hy hxy
  apply hinj hx hy
  have hxu : x.user_id = uid := by simpa using (List.mem_filter.mp hx).2
  have hyu : y.user_id = uid := by simpa using (List.mem_filter.mp hy).2
  simp [hxu, hyu, hxy]

/-- What a successful validation phase established: the batch is the
caller's cart slice, it is nonempty, and the availability scan was clean. -/
theorem checkoutValidate_ok {db : DB} {uid : Nat} {items : List CartItem}
    (h : checkoutValidate db uid = Except.ok items) :
    items = db.cart_items.filter (fun c => c.user_id == uid)
      ∧ items ≠ []
      ∧ unavailableReport db items = [] := by
  simp only [checkoutValidate] at h
  split at h
  · exact absurd h (by simp)
  · next h1 =>
    split at h
    · next h2 =>
      cases h
      exact ⟨rfl, by simpa [List.isEmpty_iff] using h1,
             List.isEmpty_iff.mp h2⟩
    · exact absurd h (by simp)

/-- A clean availability scan means every item of the batch resolves to an
existing unsold product. -/
theorem avail_of_report_nil {db : DB} {items : List CartItem}
    (h : unavailableReport db items = []) :
    ∀ item ∈ items, ∃ p, getProduct db item.product_id = some p ∧ p.is_sold = false := by
  intro item hmem
  have hnone := List.filterMap_eq_nil_iff.mp h item hmem
  cases hp : getProduct db item.product_id with
  | none => rw [hp] at hnone; exact absurd hnone (by simp)
  | some p =>
    rw [hp] at hnone
    refine ⟨p, rfl, ?_⟩
    by_cases hs : p.is_sold = true
    · simp [hs] at hnone
    · simpa using hs

/-- A cart entry of the batch whose product is missing appears in the
availability report, under the cart-entry id and the name Unknown
product. -/
theorem mem_unavailableReport_missing {db : DB} {items : List CartItem}
    {item : CartItem} (hmem : item ∈ items)
    (hnone : getProduct db item.product_id = none) :
    (⟨item.id, "Unknown product"⟩ : UnavailableProduct)
      ∈ unavailableReport db items := by
  unfold unavailableReport
  refine List.mem_filterMap.mpr ⟨item, hmem, ?_⟩
  rw [hnone]

/-- A cart entry of the batch whose product is sold appears in the
availability report, under the product id and the product title. -/
theorem mem_unavailableReport_sold {db : DB} {items : List CartItem}
    {item : CartItem} {p : Product} (hmem : item ∈ items)
    (hp : getProduct db item.product_id = some p) (hs : p.is_sold = true) :
    (⟨item.product_id, p.title⟩ : UnavailableProduct)
      ∈ unavailableReport db items := by
  unfold unavailableReport
  refine List.mem_filterMap.mpr ⟨item, hmem, ?_⟩
  rw [hp]
  simp [hs]

/-- The get_cart loop, characterized: its valid list is the available
slice of its input, its total sums the prices of exactly that slice, and
its unavailable list reports exactly the stale entries. -/
theorem cartViewLoop_spec (db : DB) : ∀ l : List CartItem,
    (cartViewLoop db l).cartItems = l.filter (entryAvailable db)
    ∧ (cartViewLoop db l).total
        = ((l.filter (entryAvailable db)).map
            (fun c => priceOf db c.product_id)).sum
    ∧ (cartViewLoop db l).unavailableItems = l.filterMap (entryStale db) := by
  intro l
  induction l with
  | nil => exact ⟨rfl, by simp [cartViewLoop], rfl⟩
  | cons a t ih =>
    obtain ⟨ih1, ih2, ih3⟩ := ih
    cases hp : getProduct db a.product_id with
    | none =>
      refine ⟨?_, ?_, ?_⟩ <;>
        simp [cartViewLoop, entryAvailable, entryStale, hp, ih1, ih2, ih3,
          List.filter_cons, List.filterMap_cons]
    | some p =>
      by_cases hs : p.is_sold = true
      · refine ⟨?_, ?_, ?_⟩ <;>
          simp [cartViewLoop, entryAvailable, entryStale, hp, hs, ih1, ih2, ih3,
            List.filter_cons, List.filterMap_cons]
      · have hs' : p.is_sold = false := by simpa using hs
        refine ⟨?_, ?_, ?_⟩ <;>
          simp [cartViewLoop, entryAvailable, entryStale, priceOf, hp, hs', ih1,
            ih2, ih3, List.filter_cons, List.filterMap_cons]

/-- The core preservation fact for the success path of checkout: applying
the staged commit of a validated batch to a well-formed state yields a
well-formed state.  The sold products gain exactly the one order item
materialized for them; untouched products keep their count and flag. -/
theorem checkoutCommit_WF {db : DB} {uid : Nat} {addr : String} {items : List CartItem}
    (hWF : WF db)
    (hitems : items = db.cart_items.filter (fun c => c.user_id == uid))
    (havail : ∀ item ∈ items, ∃ p, getProduct db item.product_id = some p ∧ p.is_sold = false) :
    WF (checkoutCommit db uid addr items).2 := by
  obtain ⟨hnd, hcu, hsi⟩ := hWF
  refine ⟨?_, ?_, ?_⟩
  · show ((markSold db.products items).map Product.id).Nodup
    rw [markSold_map_id]
    exact hnd
  · exact cartUnique_sublist (List.filter_sublist _) hcu
  · intro p' hp'
    have hp'' : p' ∈ (markSold db.products items) := hp'
    obtain ⟨p, hp, rfl⟩ := List.mem_map.mp hp''
    have hcount : orderItemCount (checkoutCommit db uid addr items).2 (markFn items p).id
        = orderItemCount db p.id + items.countP (fun c => c.product_id == p.id) := by
      simp [orderItemCount, checkoutCommit, List.countP_append,
        countP_mkOrderItems, markFn_id]
    rw [hcount]
    by_cases hhit : items.any (fun c => c.product_id == p.id) = true
    · obtain ⟨item, hitem, hpid⟩ := List.any_eq_true.mp hhit
      have hpid' : item.product_id = p.id := by simpa using hpid
      obtain ⟨q, hq, hqs⟩ := havail item hitem
      rw [hpid', getProduct_mem_self hnd hp] at hq
      cases hq
      have h0 : orderItemCount db p.id = 0 := by
        have := hsi p hp
        rwa [hqs, if_neg (by simp)] at this
      have h1 : items.countP (fun c => c.product_id == p.id) = 1 := by
        have hnd2 : (items.map fun c => c.product_id).Nodup := by
          rw [hitems]; exact filter_user_pid_nodup hcu uid
        have := countP_eq_one_of_nodup hnd2 hitem
        rwa [hpid'] at this
      rw [h0, h1]
      simp [markFn, hhit]
    · have h0 : items.countP (fun c => c.product_id == p.id) = 0 := by
        rw [List.countP_eq_zero]
        intro c hc hbeq
        exact hhit (List.any_eq_true.mpr ⟨c, hc, hbeq⟩)
      rw [h0]
      have hfn : markFn items p = p := by
        unfold markFn
        rw [if_neg hhit]
      rw [hfn]
      simpa using hsi p hp

/-- add_to_cart preserves well-formedness on every path: the four failure
paths return the state untouched, and the insert path only extends the cart
table with a pair that the AlreadyInCart check has just ruled out. -/
theorem add_to_cart_WF {db : DB} (h : WF db) (uid pid : Nat) :
    WF (add_to_cart db uid pid).2 := by
  obtain ⟨hnd, hcu, hsi⟩ := h
  unfold add_to_cart
  split
  · exact ⟨hnd, hcu, hsi⟩
  · split
    · exact ⟨hnd, hcu, hsi⟩
    · split
      · exact ⟨hnd, hcu, hsi⟩
      · next hfind =>
        split
        · exact ⟨hnd, hcu, hsi⟩
        · refine ⟨hnd, ?_, hsi⟩
          show ((db.cart_items ++ [(⟨db.next_cart_item_id, uid, pid⟩ : CartItem)]).map
              fun c : CartItem => (c.user_id, c.product_id)).Nodup
          rw [List.map_append]
          rw [List.nodup_append]
          refine ⟨hcu, by simp, ?_⟩
          intro x hx hx'
          simp only [List.map_cons, List.map_nil, List.mem_singleton] at hx'
          obtain ⟨c, hc, hcx⟩ := List.mem_map.mp hx
          have := List.find?_eq_none.mp hfind c hc
          rw [hx'] at hcx
          have hcu' : c.user_id = uid := congrArg Prod.fst hcx
          have hcp : c.product_id = pid := congrArg Prod.snd hcx
          exact this (by simp [hcu', hcp])

/-- remove_from_cart preserves well-formedness on every path: failures
return the state untouched, and the delete path shrinks the cart table. -/
theorem remove_from_cart_WF {db : DB} (h : WF db) (eid uid : Nat) :
    WF (remove_from_cart db eid uid).2 := by
  obtain ⟨hnd, hcu, hsi⟩ := h
  unfold remove_from_cart
  split
  · exact ⟨hnd, hcu, hsi⟩
  · split
    · exact ⟨hnd, hcu, hsi⟩
    · exact ⟨hnd, cartUnique_sublist (List.filter_sublist _) hcu, hsi⟩

/-- checkout preserves well-formedness on every path, for either outcome of
the durable write: EmptyCart, ItemsUnavailable and CheckoutFailed return
the state untouched, and the committed path is checkoutCommit_WF. -/
theorem checkoutWith_WF {db : DB} (h : WF db) (commit_ok : Bool) (uid : Nat)
    (addr : String) : WF (checkoutWith commit_ok db uid addr).2 := by
  unfold checkoutWith
  cases hv : checkoutValidate db uid with
  | error e => exact h
  | ok items =>
    obtain ⟨hitems, _, hrep⟩ := checkoutValidate_ok hv
    cases commit_ok with
    | false => exact h
    | true =>
      exact checkoutCommit_WF h hitems (avail_of_report_nil hrep)

/-
The claims.
-/

/-- Claim C1: for every product, at most one order item references it, and
that order item exists exactly when is_sold is true (SoldInv, inside WF);
every operation of the system (get_cart, add_to_cart, remove_from_cart,
and checkout with either outcome of the durable write, on success and
failure paths alike) carries a well-formed joint state of catalog, cart
and order stores to a well-formed one. -/
theorem ops_preserve_single_sale (db : DB) (h : WF db) :
    (∀ uid, WF (get_cart db uid).2)
    ∧ (∀ uid pid, WF (add_to_cart db uid pid).2)
    ∧ (∀ eid uid, WF (remove_from_cart db eid uid).2)
    ∧ (∀ commit_ok uid addr, WF (checkoutWith commit_ok db uid addr).2) :=
  ⟨fun _ => h,
   fun uid pid => add_to_cart_WF h uid pid,
   fun eid uid => remove_from_cart_WF h eid uid,
   fun commit_ok uid addr => checkoutWith_WF h commit_ok uid addr⟩

/-- Witness for claim C1 at the concrete state sampleDB. -/
theorem ops_preserve_single_sale_witness :
    WF sampleDB ∧ WF (checkoutWith true sampleDB 7 "addr").2 :=
  ⟨by decide, (ops_preserve_single_sale sampleDB (by decide)).2.2.2 true 7 "addr"⟩

/-- Claim C8: a user with an empty cart slice always gets EmptyCart from
checkout, on either durable-write outcome, with the state untouched. -/
theorem empty_cart_checkout_noop (db : DB) (uid : Nat) (addr : String)
    (h : db.cart_items.filter (fun c => c.user_id == uid) = []) :
    ∀ commit_ok, checkoutWith commit_ok db uid addr
      = (Except.error CheckoutError.EmptyCart, db) := by
  intro commit_ok
  unfold checkoutWith checkoutValidate
  simp [h]

/-- Witness for claim C8: user 9 has no cart entries in sampleDB. -/
theorem empty_cart_checkout_noop_witness :
    sampleDB.cart_items.filter (fun c => c.user_id == 9) = []
      ∧ checkoutWith true sampleDB 9 "addr"
          = (Except.error CheckoutError.EmptyCart, sampleDB) :=
  ⟨by decide, empty_cart_checkout_noop sampleDB 9 "addr" (by decide) true⟩

/-- Claim C9: remove_from_cart deletes the row exactly when it exists and
is owned by the requester; a missing row yields NotFound, a row owned by
another user yields Forbidden, and both failures leave the state
untouched. -/
theorem remove_from_cart_ownership (db : DB) (eid uid : Nat) :
    (db.cart_items.find? (fun c => c.id == eid) = none →
       remove_from_cart db eid uid = (Except.error RemoveError.NotFound, db))
    ∧ (∀ item, db.cart_items.find? (fun c => c.id == eid) = some item →
         item.user_id ≠ uid →
         remove_from_cart db eid uid = (Except.error RemoveError.Forbidden, db))
    ∧ (∀ item, db.cart_items.find? (fun c => c.id == eid) = some item →
         item.user_id = uid →
         remove_from_cart db eid uid
           = (Except.ok (),
              { db with cart_items := db.cart_items.filter (fun c => c.id != eid) })) := by
  refine ⟨?_, ?_, ?_⟩
  · intro hnone
    unfold remove_from_cart
    rw [hnone]
  · intro item hsome hne
    unfold remove_from_cart
    rw [hsome]
    simp [hne]
  · intro item hsome heq
    unfold remove_from_cart
    rw [hsome]
    simp [heq]

/-- Witness for claim C9: in sampleDB, entry 1 exists and belongs to user
7; requester 8 is rejected with Forbidden, requester 7 deletes it, and a
lookup of absent entry 5 yields NotFound. -/
theorem remove_from_cart_ownership_witness :
    remove_from_cart sampleDB 5 7 = (Except.error RemoveError.NotFound, sampleDB)
    ∧ remove_from_cart sampleDB 1 8 = (Except.error RemoveError.Forbidden, sampleDB)
    ∧ remove_from_cart sampleDB 1 7
        = (Except.ok (),
           { sampleDB with
               cart_items := sampleDB.cart_items.filter (fun c => c.id != 1) }) :=
  ⟨(remove_from_cart_ownership sampleDB 5 7).1 (by decide),
   (remove_from_cart_ownership sampleDB 1 8).2.1 ⟨1, 7, 1⟩ (by decide) (by decide),
   (remove_from_cart_ownership sampleDB 1 7).2.2 ⟨1, 7, 1⟩ (by decide) (by decide)⟩

/-- Claim C5: when the durable order write fails on a checkout whose
validation passed (the attempt on which the sold-flag flips, the order, its
items and the cart deletions were staged), the rollback discards every
staged write: the caller sees CheckoutFailed and the final state is exactly
the pre-checkout state, so every affected product is unsold again, no
order or order item is persisted, and the cart entries remain. -/
theorem persistence_failure_rolls_back (db : DB) (uid : Nat) (addr : String)
    (h : ∃ items, checkoutValidate db uid = Except.ok items) :
    checkoutWith false db uid addr
      = (Except.error CheckoutError.CheckoutFailed, db) := by
  obtain ⟨items, hv⟩ := h
  unfold checkoutWith
  rw [hv]
  simp

/-- Witness for claim C5 at sampleDB. -/
theorem persistence_failure_rolls_back_witness :
    checkoutValidate sampleDB 7 = Except.ok [⟨1, 7, 1⟩, ⟨2, 7, 2⟩]
    ∧ checkoutWith false sampleDB 7 "addr"
        = (Except.error CheckoutError.CheckoutFailed, sampleDB) :=
  ⟨by decide,
   persistence_failure_rolls_back sampleDB 7 "addr"
     ⟨[⟨1, 7, 1⟩, ⟨2, 7, 2⟩], by decide⟩⟩

/-- Counterexample to claim C6 as stated: in ownInCartDB, product 1 is
unsold and its seller (user 2) already holds it in the cart, so the
claimed priority order demands SelfPurchaseForbidden; but add_to_cart
checks the existing cart row before the self-purchase rule and returns
AlreadyInCart. -/
theorem add_to_cart_order_cex :
    add_to_cart ownInCartDB 2 1 = (Except.error AddError.AlreadyInCart, ownInCartDB)
    ∧ AddError.AlreadyInCart ≠ AddError.SelfPurchaseForbidden
    ∧ (getProduct ownInCartDB 1).map Product.seller_id = some 2
    ∧ (getProduct ownInCartDB 1).map Product.is_sold = some false :=
  ⟨by decide, by decide, by decide, by decide⟩

/-- Claim C6 amended: add_to_cart applies its checks in the source's order
ProductNotFound, then ProductUnavailable, then AlreadyInCart, then
SelfPurchaseForbidden, and inserts a new cart row only past all four;
every failure path leaves the state untouched.  (The claim swaps the last
two checks: the code resolves an own unsold product already in the cart as
AlreadyInCart, not SelfPurchaseForbidden.) -/
theorem add_to_cart_check_order (db : DB) (uid pid : Nat) :
    (getProduct db pid = none →
       add_to_cart db uid pid = (Except.error AddError.ProductNotFound, db))
    ∧ (∀ p, getProduct db pid = some p → p.is_sold = true →
         add_to_cart db uid pid = (Except.error AddError.ProductUnavailable, db))
    ∧ (∀ p e, getProduct db pid = some p → p.is_sold = false →
         db.cart_items.find? (fun c => c.user_id == uid && c.product_id == pid)
           = some e →
         add_to_cart db uid pid = (Except.error AddError.AlreadyInCart, db))
    ∧ (∀ p, getProduct db pid = some p → p.is_sold = false →
         db.cart_items.find? (fun c => c.user_id == uid && c.product_id == pid)
           = none →
         p.seller_id = uid →
         add_to_cart db uid pid = (Except.error AddError.SelfPurchaseForbidden, db))
    ∧ (∀ p, getProduct db pid = some p → p.is_sold = false →
         db.cart_items.find? (fun c => c.user_id == uid && c.product_id == pid)
           = none →
         p.seller_id ≠ uid →
         add_to_cart db uid pid
           = (Except.ok (⟨db.next_cart_item_id, uid, pid⟩ : CartItem),
              { db with
                  cart_items := db.cart_items
                    ++ [(⟨db.next_cart_item_id, uid, pid⟩ : CartItem)]
                  next_cart_item_id := db.next_cart_item_id + 1 })) := by
  refine ⟨?_, ?_, ?_, ?_, ?_⟩
  · intro hnone
    unfold add_to_cart
    rw [hnone]
  · intro p hp hs
    unfold add_to_cart
    rw [hp]
    simp [hs]
  · intro p e hp hs hfind
    unfold add_to_cart
    rw [hp]
    simp [hs, hfind]
  · intro p hp hs hfind hself
    unfold add_to_cart
    rw [hp]
    simp [hs, hfind, hself]
  · intro p hp hs hfind hself
    unfold add_to_cart
    rw [hp]
    simp [hs, hfind, hself]

/-- Witness for claim C6 (amended) covering all five branches at concrete
inputs. -/
theorem add_to_cart_check_order_witness :
    add_to_cart sampleDB 7 3 = (Except.error AddError.ProductNotFound, sampleDB)
    ∧ add_to_cart ownSoldDB 3 1 = (Except.error AddError.ProductUnavailable, ownSoldDB)
    ∧ add_to_cart ownInCartDB 2 1 = (Except.error AddError.AlreadyInCart, ownInCartDB)
    ∧ add_to_cart ownFreshDB 2 1
        = (Except.error AddError.SelfPurchaseForbidden, ownFreshDB)
    ∧ add_to_cart sampleDB 8 1
        = (Except.ok (⟨3, 8, 1⟩ : CartItem),
           { sampleDB with
               cart_items := sampleDB.cart_items ++ [(⟨3, 8, 1⟩ : CartItem)]
               next_cart_item_id := 4 }) :=
  ⟨(add_to_cart_check_order sampleDB 7 3).1 (by decide),
   (add_to_cart_check_order ownSoldDB 3 1).2.1 ⟨1, "own", 5, true, 2⟩
     (by decide) (by decide),
   (add_to_cart_check_order ownInCartDB 2 1).2.2.1 ⟨1, "own", 5, false, 2⟩
     ⟨1, 2, 1⟩ (by decide) (by decide) (by decide),
   (add_to_cart_check_order ownFreshDB 2 1).2.2.2.1 ⟨1, "own", 5, false, 2⟩
     (by decide) (by decide) (by decide) (by decide),
   (add_to_cart_check_order sampleDB 8 1).2.2.2.2 ⟨1, "A", 10, false, 100⟩
     (by decide) (by decide) (by decide) (by decide)⟩

/-- Counterexample to claim C7 as stated: user 2 is the seller of product
1 in ownSoldDB, the product is sold, and add_to_cart rejects it with
ProductUnavailable, not SelfPurchaseForbidden — availability does change
the outcome. -/
theorem self_purchase_sold_cex :
    (getProduct ownSoldDB 1).map Product.seller_id = some 2
    ∧ add_to_cart ownSoldDB 2 1 = (Except.error AddError.ProductUnavailable, ownSoldDB)
    ∧ AddError.ProductUnavailable ≠ AddError.SelfPurchaseForbidden :=
  ⟨by decide, by decide, by decide⟩

/-- Claim C7 amended: an own product draws SelfPurchaseForbidden exactly
when it survives the two earlier checks, that is when it is unsold and not
already in the caller's cart; an own sold product is rejected as
ProductUnavailable instead.  Both failures leave the state untouched. -/
theorem self_purchase_rejected (db : DB) (uid pid : Nat) (p : Product)
    (hp : getProduct db pid = some p) (hself : p.seller_id = uid) :
    (p.is_sold = false →
       db.cart_items.find? (fun c => c.user_id == uid && c.product_id == pid)
         = none →
       add_to_cart db uid pid = (Except.error AddError.SelfPurchaseForbidden, db))
    ∧ (p.is_sold = true →
       add_to_cart db uid pid = (Except.error AddError.ProductUnavailable, db)) := by
  constructor
  · intro hs hfind
    unfold add_to_cart
    rw [hp]
    simp [hs, hfind, hself]
  · intro hs
    unfold add_to_cart
    rw [hp]
    simp [hs]

/-- Witness for claim C7 (amended): the unsold own product of ownFreshDB
and the sold own product of ownSoldDB. -/
theorem self_purchase_rejected_witness :
    add_to_cart ownFreshDB 2 1
      = (Except.error AddError.SelfPurchaseForbidden, ownFreshDB)
    ∧ add_to_cart ownSoldDB 2 1
        = (Except.error AddError.ProductUnavailable, ownSoldDB) :=
  ⟨(self_purchase_rejected ownFreshDB 2 1 ⟨1, "own", 5, false, 2⟩
      (by decide) (by decide)).1 (by decide) (by decide),
   (self_purchase_rejected ownSoldDB 2 1 ⟨1, "own", 5, true, 2⟩
      (by decide) (by decide)).2 (by decide)⟩

/-- Claim C3 evaluated on the code: both racing checkouts of raceDB pass
validation against the same state; the mark-sold write of the commit loop
is an unconditional assignment that cannot report a conflict, so both
commits land.  The final state holds two orders and two order items
referencing product 1, violating the single-sale invariant — there is no
compare-and-set and no losing checkout in the code. -/
theorem race_double_sell :
    checkoutValidate raceDB 7 = Except.ok [⟨1, 7, 1⟩]
    ∧ checkoutValidate raceDB 8 = Except.ok [⟨2, 8, 1⟩]
    ∧ raceAfterSecond.orders.length = 2
    ∧ orderItemCount raceAfterSecond 1 = 2
    ∧ (getProduct raceAfterSecond 1).map Product.is_sold = some true
    ∧ ¬ SoldInv raceAfterSecond :=
  ⟨by decide, by decide, by decide, by decide, by decide, by decide⟩

/-- Counterexample to claim C4 as stated: in staleDB the only cart entry
(id 3, user 1) references the absent product 5; checkout aborts without
mutation, but the single report row carries id 3 — the cart-entry id, not
the product id — and the string Unknown product in place of a reason of
missing or sold; no row of the report mentions product id 5. -/
theorem stale_report_shape_cex :
    checkout staleDB 1 ""
      = (Except.error (CheckoutError.ItemsUnavailable
           [⟨3, "Unknown product"⟩]), staleDB)
    ∧ (∀ r ∈ [(⟨3, "Unknown product"⟩ : UnavailableProduct)], r.id ≠ 5)
    ∧ (∀ r ∈ [(⟨3, "Unknown product"⟩ : UnavailableProduct)],
         r.name ≠ "missing" ∧ r.name ≠ "sold") :=
  ⟨by decide, by decide, by decide⟩

/-- Claim C4 amended: for every user whose non-empty cart slice holds at
least one stale entry, checkout (either durable-write outcome) fails with
ItemsUnavailable carrying one report row per stale entry — for a sold
product its product id and title, for a missing product the cart-entry id
and the name Unknown product, rather than the product id plus a
missing/sold reason — no store state is mutated, and the stale entries
remain in the cart. -/
theorem stale_checkout_aborts (db : DB) (uid : Nat) (addr : String)
    (commit_ok : Bool)
    (hne : db.cart_items.filter (fun c => c.user_id == uid) ≠ [])
    (hstale : ∃ item ∈ db.cart_items.filter (fun c => c.user_id == uid),
        getProduct db item.product_id = none
        ∨ ∃ p, getProduct db item.product_id = some p ∧ p.is_sold = true) :
    checkoutWith commit_ok db uid addr
      = (Except.error (CheckoutError.ItemsUnavailable
           (unavailableReport db
             (db.cart_items.filter (fun c => c.user_id == uid)))), db)
    ∧ unavailableReport db (db.cart_items.filter (fun c => c.user_id == uid)) ≠ []
    ∧ (∀ item ∈ db.cart_items.filter (fun c => c.user_id == uid),
         getProduct db item.product_id = none →
         (⟨item.id, "Unknown product"⟩ : UnavailableProduct)
           ∈ unavailableReport db (db.cart_items.filter (fun c => c.user_id == uid)))
    ∧ (∀ item ∈ db.cart_items.filter (fun c => c.user_id == uid), ∀ p,
         getProduct db item.product_id = some p → p.is_sold = true →
         (⟨item.product_id, p.title⟩ : UnavailableProduct)
           ∈ unavailableReport db (db.cart_items.filter (fun c => c.user_id == uid))) := by
  have hrep : unavailableReport db
      (db.cart_items.filter (fun c => c.user_id == uid)) ≠ [] := by
    obtain ⟨item, hmem, hcase⟩ := hstale
    rcases hcase with hnone | ⟨p, hp, hs⟩
    · exact List.ne_nil_of_mem (mem_unavailableReport_missing hmem hnone)
    · exact List.ne_nil_of_mem (mem_unavailableReport_sold hmem hp hs)
  have hval : checkoutValidate db uid
      = Except.error (CheckoutError.ItemsUnavailable
          (unavailableReport db (db.cart_items.filter (fun c => c.user_id == uid)))) := by
    simp only [checkoutValidate]
    rw [if_neg (by simpa [List.isEmpty_iff] using hne)]
    rw [if_neg (by simpa [List.isEmpty_iff] using hrep)]
  refine ⟨?_, hrep,
    fun item hmem hnone => mem_unavailableReport_missing hmem hnone,
    fun item hmem p hp hs => mem_unavailableReport_sold hmem hp hs⟩
  unfold checkoutWith
  rw [hval]

/-- Witness for claim C4 (amended) at staleDB: user 1's only cart entry
references missing product 5. -/
theorem stale_checkout_aborts_witness :
    checkoutWith true staleDB 1 ""
      = (Except.error (CheckoutError.ItemsUnavailable
           (unavailableReport staleDB
             (staleDB.cart_items.filter (fun c => c.user_id == 1)))), staleDB) :=
  (stale_checkout_aborts staleDB 1 "" true (by decide)
    ⟨⟨3, 1, 5⟩, by decide, Or.inl (by decide)⟩).1

/-- Claim C2: for any user whose cart slice is exactly two entries
referencing existing unsold products A (price 10) and B (price 15),
checkout with the durable write succeeding and no interference returns the
one new order with total 25 for that user; exactly that order and exactly
two order items capturing prices 10 and 15 against A and B are appended,
the user's cart slice is emptied, and A and B are marked sold. -/
theorem checkout_round_trip (db : DB) (uid : Nat) (addr : String)
    (e1 e2 : CartItem) (A B : Product)
    (hfilter : db.cart_items.filter (fun c => c.user_id == uid) = [e1, e2])
    (hA : getProduct db e1.product_id = some A) (hsA : A.is_sold = false)
    (hpA : A.price = 10)
    (hB : getProduct db e2.product_id = some B) (hsB : B.is_sold = false)
    (hpB : B.price = 15) :
    (checkout db uid addr).1
        = Except.ok (⟨db.next_order_id, uid, 25, addr⟩ : Order)
    ∧ (checkout db uid addr).2.orders
        = db.orders ++ [(⟨db.next_order_id, uid, 25, addr⟩ : Order)]
    ∧ (checkout db uid addr).2.order_items
        = db.order_items
          ++ [(⟨db.next_order_item_id, db.next_order_id, e1.product_id, 10⟩ : OrderItem),
              (⟨db.next_order_item_id + 1, db.next_order_id, e2.product_id, 15⟩ : OrderItem)]
    ∧ (checkout db uid addr).2.cart_items.filter (fun c => c.user_id == uid) = []
    ∧ getProduct (checkout db uid addr).2 A.id = some { A with is_sold := true }
    ∧ getProduct (checkout db uid addr).2 B.id = some { B with is_sold := true } := by
  have hval : checkoutValidate db uid = Except.ok [e1, e2] := by
    simp only [checkoutValidate, hfilter]
    simp [unavailableReport, hA, hB, hsA, hsB]
  have hck : checkout db uid addr
      = (Except.ok (checkoutCommit db uid addr [e1, e2]).1,
         (checkoutCommit db uid addr [e1, e2]).2) := by
    unfold checkout checkoutWith
    rw [hval]
    rfl
  have hAid : A.id = e1.product_id := by simpa using List.find?_some hA
  have hBid : B.id = e2.product_id := by simpa using List.find?_some hB
  have htot : (([e1, e2].map (fun item => priceOf db item.product_id)).sum : ℚ) = 25 := by
    simp [priceOf, hA, hB, hpA, hpB]
    norm_num
  refine ⟨?_, ?_, ?_, ?_, ?_, ?_⟩
  · rw [hck]
    show Except.ok (checkoutCommit db uid addr [e1, e2]).1 = _
    simp only [checkoutCommit]
    rw [htot]
  · rw [hck]
    show db.orders ++ [(⟨db.next_order_id, uid,
        ([e1, e2].map (fun item => priceOf db item.product_id)).sum, addr⟩ : Order)] = _
    rw [htot]
  · rw [hck]
    show db.order_items
        ++ mkOrderItems db db.next_order_item_id db.next_order_id [e1, e2] = _
    simp only [mkOrderItems]
    simp [priceOf, hA, hB, hpA, hpB]
  · rw [hck]
    show (deleteItems db.cart_items [e1, e2]).filter (fun c => c.user_id == uid) = []
    rw [List.filter_eq_nil_iff]
    intro c hc hcu
    obtain ⟨hcmem, hckeep⟩ := List.mem_filter.mp hc
    have hcin : c ∈ [e1, e2] := by
      rw [← hfilter]
      exact List.mem_filter.mpr ⟨hcmem, hcu⟩
    have : ([e1, e2].any fun i => i.id == c.id) = true := by
      rcases List.mem_cons.mp hcin with rfl | h2
      · simp
      · rcases List.mem_cons.mp h2 with rfl | h3
        · simp
        · cases h3
    rw [this] at hckeep
    exact absurd hckeep (by simp)
  · rw [hck]
    show (markSold db.products [e1, e2]).find? (fun p => p.id == A.id)
        = some { A with is_sold := true }
    rw [find?_markSold, hAid]
    have hA' : db.products.find? (fun p => p.id == e1.product_id) = some A := hA
    rw [hA']
    simp [markFn, hAid]
  · rw [hck]
    show (markSold db.products [e1, e2]).find? (fun p => p.id == B.id)
        = some { B with is_sold := true }
    rw [find?_markSold, hBid]
    have hB' : db.products.find? (fun p => p.id == e2.product_id) = some B := hB
    rw [hB']
    simp [markFn, hBid]

/-- Witness for claim C2 at sampleDB: user 7's cart holds exactly products
1 (price 10) and 2 (price 15). -/
theorem checkout_round_trip_witness :
    sampleDB.cart_items.filter (fun c => c.user_id == 7) = [⟨1, 7, 1⟩, ⟨2, 7, 2⟩]
    ∧ (checkout sampleDB 7 "addr").1 = Except.ok (⟨1, 7, 25, "addr"⟩ : Order) :=
  ⟨by decide,
   (checkout_round_trip sampleDB 7 "addr" ⟨1, 7, 1⟩ ⟨2, 7, 2⟩
      ⟨1, "A", 10, false, 100⟩ ⟨2, "B", 15, false, 101⟩
      (by decide) (by decide) (by decide) (by decide)
      (by decide) (by decide) (by decide)).1⟩

/-- Claim C10: get_cart mutates nothing; its valid list is exactly the
available slice of the user's cart (product exists and unsold), its total
sums the prices of exactly that slice, and every stale entry is reported
in unavailableItems with its product id and a reason of missing or sold
instead of appearing among the valid items. -/
theorem get_cart_totals (db : DB) (uid : Nat) :
    (get_cart db uid).2 = db
    ∧ (get_cart db uid).1.cartItems
        = (db.cart_items.filter (fun c => c.user_id == uid)).filter (entryAvailable db)
    ∧ (get_cart db uid).1.total
        = (((db.cart_items.filter (fun c => c.user_id == uid)).filter
             (entryAvailable db)).map (fun c => priceOf db c.product_id)).sum
    ∧ (get_cart db uid).1.unavailableItems
        = (db.cart_items.filter (fun c => c.user_id == uid)).filterMap (entryStale db) := by
  obtain ⟨h1, h2, h3⟩ :=
    cartViewLoop_spec db (db.cart_items.filter (fun c => c.user_id == uid))
  exact ⟨rfl, h1, h2, h3⟩

end EcoFinds
